import Mathlib

deriving instance DecidableEq for Except

/-
  Verification of the browser authentication module (src/openai-auth.ts).

  The embedding models:
  * checkForChatGPTAtCapacity : the bounded reload-and-retry capacity guard loop;
  * waitForConditionOrAtCapacity : the race between a primary wait condition and
    the capacity poller, as a small-step event machine over the shared
    "resolved" latch;
  * the try/finally resource release of getOpenAIAuth;
  * the cookie capture and result construction of getOpenAIAuth;
  * the proxy-server argument construction of getBrowser;
  * the option defaulting of timeoutMs, pollingIntervalMs and retries.
-/

namespace OpenAIAuth

/-- What one iteration of the capacity-guard polling loop observes on the page.
  `clear`: the XPath query finds no capacity banner.
  `banner`: the query finds the banner, and the subsequent page reload and
    delay both succeed.
  `bannerReloadError e`: the query finds the banner, but the page reload
    (or the delay) throws an error identified by `e`.
  `queryError e`: the XPath query itself (navigation etc.) throws an error
    identified by `e`. -/
inductive PollObs where
  | clear : PollObs
  | banner : PollObs
  | bannerReloadError : Nat → PollObs
  | queryError : Nat → PollObs
deriving DecidableEq, Repr

/-- Page-affecting actions one loop iteration of the guard performs, in order:
  the banner query (page.$x), the page.reload call, and the
  delay(pollingIntervalMs) call. -/
inductive GuardAction where
  | query : GuardAction
  | reloadPage : GuardAction
  | delayPoll : GuardAction
deriving DecidableEq, Repr

/-- An error thrown out of the capacity check.  The source can only construct
  `chatGPTError "ChatGPT is at capacity" 503` (lines 522-524); `underlying e`
  stands for an uncaught propagation of a poll-cycle error `e`, which the
  catch block of the source prevents. -/
inductive PollThrow where
  | chatGPTError : String → Nat → PollThrow
  | underlying : Nat → PollThrow
deriving DecidableEq, Repr

/-- The 503 error built at lines 521-524 of the source. -/
def atCapacityError : PollThrow := .chatGPTError "ChatGPT is at capacity" 503

/-- Result of a run of checkForChatGPTAtCapacity: whether it returned
  normally or threw, together with the trace of page actions performed. -/
structure CapacityResult where
  result : Except PollThrow Unit
  trace : List GuardAction
deriving DecidableEq, Repr

/-- One run of the do-while loop of checkForChatGPTAtCapacity, starting at
  iteration `i` of the observation stream `obs`.
  `atCapacityPrev` is the value of the mutable `isAtCapacity` variable on
  entry to the iteration (false on the first iteration, true on re-entry,
  since the loop only continues while `isAtCapacity`).
  `k` is the number of continuations still allowed: the source continues a
  banner iteration if and only if `++numTries < retries`; with `numTries = i`
  on entry to iteration `i` this is `i + 1 < retries`, i.e. `k > 0` for
  `k = retries - 1 - i`. -/
def checkCapacityGo (obs : Nat → PollObs) : Nat → Bool → Nat → CapacityResult
  | i, atCapacityPrev, k =>
    match obs i, k with
    | .clear, _ =>
        -- isAtCapacity becomes false, the while condition fails, no throw
        ⟨.ok (), [.query]⟩
    | .queryError _, _ =>
        -- the catch block swallows the error, increments numTries and breaks;
        -- the final `if (isAtCapacity) throw` sees the value from loop entry
        ⟨if atCapacityPrev then .error atCapacityError else .ok (), [.query]⟩
    | .banner, 0 =>
        -- ++numTries >= retries: break with isAtCapacity = true, throw 503
        ⟨.error atCapacityError, [.query]⟩
    | .banner, k' + 1 =>
        -- reload the page, delay pollingIntervalMs, loop again at capacity
        let rest := checkCapacityGo obs (i + 1) true k'
        ⟨rest.result, .query :: .reloadPage :: .delayPoll :: rest.trace⟩
    | .bannerReloadError _, 0 =>
        -- the break on ++numTries >= retries fires before the reload
        ⟨.error atCapacityError, [.query]⟩
    | .bannerReloadError _, _ + 1 =>
        -- reload throws: caught, numTries incremented again, break; the
        -- final check sees isAtCapacity = true and throws 503
        ⟨.error atCapacityError, [.query, .reloadPage]⟩

/-- checkForChatGPTAtCapacity (source lines 476-526) run against observation
  stream `obs` with retry budget `retries`.  The loop starts at iteration 0,
  not at capacity, with `retries - 1` continuations allowed (the source
  behaves identically for `retries = 0` and `retries = 1`, since its only
  use of `retries` is the test `++numTries >= retries` with `numTries ≥ 0`). -/
def checkForChatGPTAtCapacity (obs : Nat → PollObs) (retries : Nat) : CapacityResult :=
  checkCapacityGo obs 0 false (retries - 1)

/-- Options record of checkForChatGPTAtCapacity; `none` models an absent
  (undefined) option field. -/
structure CapacityOpts where
  timeoutMs : Option Nat := none
  pollingIntervalMs : Option Nat := none
  retries : Option Nat := none

/-- Destructuring default `timeoutMs = 2 * 60 * 1000` at line 485. -/
def capacityTimeoutMs (o : CapacityOpts) : Nat := o.timeoutMs.getD (2 * 60 * 1000)

/-- Destructuring default `pollingIntervalMs = 3000` at line 486. -/
def capacityPollingIntervalMs (o : CapacityOpts) : Nat := o.pollingIntervalMs.getD 3000

/-- Destructuring default `retries = 10` at line 487. -/
def capacityRetries (o : CapacityOpts) : Nat := o.retries.getD 10

/-- Destructuring default `timeoutMs = 2 * 60 * 1000` of getOpenAIAuth, line 55. -/
def getOpenAIAuthTimeoutMs (timeoutMs : Option Nat) : Nat :=
  timeoutMs.getD (2 * 60 * 1000)

/-- The trace of a successful guard run that saw the banner `r` times and then
  found it cleared: `r` rounds of query-reload-delay, then the final clear
  query. -/
def okTrace : Nat → List GuardAction
  | 0 => [.query]
  | r + 1 => .query :: .reloadPage :: .delayPoll :: okTrace r

/-- If the banner is seen for `r` consecutive iterations starting at `i` and
  then clears, and at least `r` continuations remain, the loop returns
  normally having performed `r` reload-and-delay rounds. -/
theorem checkCapacityGo_clears (obs : Nat → PollObs) :
    ∀ r i k, r ≤ k → (∀ j, j < r → obs (i + j) = .banner) →
      obs (i + r) = .clear → ∀ b,
      checkCapacityGo obs i b k = ⟨.ok (), okTrace r⟩ := by
  intro r
  induction r with
  | zero =>
      intro i k _ _ hc b
      simp only [Nat.add_zero] at hc
      simp [checkCapacityGo, hc, okTrace]
  | succ r ih =>
      intro i k hk hb hc b
      have hbi : obs i = .banner := by
        have := hb 0 (Nat.succ_pos r)
        simpa using this
      match k, hk with
      | k' + 1, hk =>
        have hb' : ∀ j, j < r → obs (i + 1 + j) = .banner := by
          intro j hj
          have := hb (j + 1) (Nat.succ_lt_succ hj)
          simpa [Nat.add_assoc, Nat.add_comm 1 j] using this
        have hc' : obs (i + 1 + r) = .clear := by
          simpa [Nat.add_assoc, Nat.add_comm 1 r] using hc
        have hrest := ih (i + 1) k' (Nat.le_of_succ_le_succ hk) hb' hc' true
        simp [checkCapacityGo, hbi, hrest, okTrace]

/-- If the banner is seen on every iteration through the last allowed
  continuation, the loop throws the 503 capacity error. -/
theorem checkCapacityGo_allBanner (obs : Nat → PollObs) :
    ∀ k i b, (∀ j, j ≤ k → obs (i + j) = .banner) →
      (checkCapacityGo obs i b k).result = .error atCapacityError := by
  intro k
  induction k with
  | zero =>
      intro i b hb
      have hbi : obs i = .banner := by simpa using hb 0 (Nat.le_refl 0)
      simp [checkCapacityGo, hbi]
  | succ k ih =>
      intro i b hb
      have hbi : obs i = .banner := by simpa using hb 0 (Nat.zero_le _)
      have hrest := ih (i + 1) true (fun j hj => by
        have := hb (j + 1) (Nat.succ_le_succ hj)
        simpa [Nat.add_assoc, Nat.add_comm 1 j] using this)
      simp [checkCapacityGo, hbi, hrest]

/-- C1: if the capacity banner is present for exactly `r` polling cycles with
  `r` strictly below the retry budget and then clears, the guard returns
  normally, having reloaded the page and waited the polling interval between
  detections; if the banner is present for the full retry budget, the guard
  throws the ChatGPTError whose statusCode is 503. -/
theorem c1_capacity_guard_budget (obs : Nat → PollObs) (retries r : Nat) :
    (r < retries → (∀ j, j < r → obs j = .banner) → obs r = .clear →
      checkForChatGPTAtCapacity obs retries = ⟨.ok (), okTrace r⟩) ∧
    (0 < retries → (∀ j, j < retries → obs j = .banner) →
      (checkForChatGPTAtCapacity obs retries).result =
        .error (.chatGPTError "ChatGPT is at capacity" 503)) := by
  constructor
  · intro hr hb hc
    have := checkCapacityGo_clears obs r 0 (retries - 1) (by omega)
      (fun j hj => by simpa using hb j hj) (by simpa using hc) false
    simpa [checkForChatGPTAtCapacity] using this
  · intro hpos hb
    have := checkCapacityGo_allBanner obs (retries - 1) 0 false
      (fun j hj => by
        have : j < retries := by omega
        simpa using hb j this)
    simpa [checkForChatGPTAtCapacity, atCapacityError] using this

/-- Witness for C1 at a concrete observation stream: banner for two cycles
  then clear succeeds with two reload rounds; banner throughout throws 503. -/
theorem c1_capacity_guard_budget_witness :
    checkForChatGPTAtCapacity (fun i => if i < 2 then .banner else .clear) 10 =
      ⟨.ok (), okTrace 2⟩ ∧
    (checkForChatGPTAtCapacity (fun _ => .banner) 10).result =
      .error (.chatGPTError "ChatGPT is at capacity" 503) :=
  ⟨(c1_capacity_guard_budget (fun i => if i < 2 then .banner else .clear) 10 2).1
      (by decide) (by decide) (by decide),
   (c1_capacity_guard_budget (fun _ => .banner) 10 0).2
      (by decide) (fun j _ => rfl)⟩

/-- Each iteration of the loop contributes one banner query, and at most
  `k + 1` iterations run. -/
theorem checkCapacityGo_count_query (obs : Nat → PollObs) :
    ∀ k i b, ((checkCapacityGo obs i b k).trace.count .query) ≤ k + 1 := by
  intro k
  induction k with
  | zero =>
      intro i b
      cases hoi : obs i <;>
        simp [checkCapacityGo, hoi, List.count_cons]
  | succ k ih =>
      intro i b
      have hrec := ih (i + 1) true
      cases hoi : obs i
      · simp [checkCapacityGo, hoi, List.count_cons]
      · simp [checkCapacityGo, hoi, List.count_cons]
        omega
      · simp [checkCapacityGo, hoi, List.count_cons]
      · simp [checkCapacityGo, hoi, List.count_cons]

/-- C6 counterexample: with a retry budget of 0 the do-while loop still
  performs one banner-detection cycle, exceeding the stated bound of
  at most `retries` cycles. -/
theorem c6_counterexample :
    (checkForChatGPTAtCapacity (fun _ => .clear) 0).trace.count .query = 1 ∧
    ¬ (checkForChatGPTAtCapacity (fun _ => .clear) 0).trace.count .query ≤ 0 := by
  decide

/-- C6 (amended): for every input the polling loop terminates after at most
  `max retries 1` banner-detection cycles, and an error raised while polling
  exits the loop at once (an error on the first poll ends the run with a
  single query performed). -/
theorem c6_loop_bounded (obs : Nat → PollObs) (retries : Nat) :
    (checkForChatGPTAtCapacity obs retries).trace.count .query ≤ max retries 1 ∧
    (∀ e, obs 0 = .queryError e →
      (checkForChatGPTAtCapacity obs retries).trace = [.query]) := by
  constructor
  · have := checkCapacityGo_count_query obs (retries - 1) 0 false
    have hmax : retries - 1 + 1 ≤ max retries 1 := by omega
    exact le_trans this hmax
  · intro e he
    simp [checkForChatGPTAtCapacity, checkCapacityGo, he]

/-- Witness for C6 (amended) at a concrete input: a stream that errors on the
  first poll performs one query and stops. -/
theorem c6_loop_bounded_witness :
    (checkForChatGPTAtCapacity (fun _ => .queryError 5) 10).trace.count .query ≤ max 10 1 ∧
    (checkForChatGPTAtCapacity (fun _ => .queryError 5) 10).trace = [.query] :=
  ⟨(c6_loop_bounded (fun _ => .queryError 5) 10).1,
   (c6_loop_bounded (fun _ => .queryError 5) 10).2 5 rfl⟩

/-- Settlement of the primary wait condition promise: it fulfils, or rejects
  with an error identified by `e`. -/
inductive CondOutcome where
  | ok : CondOutcome
  | err : Nat → CondOutcome
deriving DecidableEq, Repr

/-- A rejection reason of the promise returned by
  waitForConditionOrAtCapacity: the rejection of the primary condition
  (line 569), or an error thrown by the capacity poller (line 554). -/
inductive GuardReject where
  | fromCondition : Nat → GuardReject
  | fromPoller : PollThrow → GuardReject
deriving DecidableEq, Repr

/-- State of one execution of waitForConditionOrAtCapacity.
  `resolved` is the mutable one-shot latch of line 538; `outcome` is what the
  returned promise has settled with, if anything; `settleCount` counts the
  calls made to resolve or reject; `timerPending` records a scheduled
  setTimeout of waitForCapacityText; `pollRunning` records that a
  checkForChatGPTAtCapacity call is being awaited; `condDone` records that
  the condition promise has already settled (a promise settles once). -/
structure GuardState where
  resolved : Bool
  outcome : Option (Except GuardReject Unit)
  settleCount : Nat
  timerPending : Bool
  pollRunning : Bool
  condDone : Bool
deriving DecidableEq, Repr

/-- The initial state: nothing settled, the first poll timer scheduled at
  line 573. -/
def guardInit : GuardState :=
  ⟨false, none, 0, true, false, false⟩

/-- Events of one execution of waitForConditionOrAtCapacity.
  `condSettle o`: the condition promise settles with `o`, running the then
  or catch handler of lines 559-571.
  `pollTimerFire`: a scheduled waitForCapacityText timeout fires
  (lines 540-543).
  `pollCheckReturn obs`: the awaited checkForChatGPTAtCapacity call, run
  against page observations `obs` with its default retry budget of 10,
  returns or throws (lines 545-556). -/
inductive GuardEvent where
  | condSettle : CondOutcome → GuardEvent
  | pollTimerFire : GuardEvent
  | pollCheckReturn : (Nat → PollObs) → GuardEvent

/-- One step of the event machine, mirroring the handlers of
  waitForConditionOrAtCapacity (source lines 528-575). Events that cannot
  occur in the given state (a second settlement of the same promise, a timer
  firing that was never scheduled, a poll returning that never started)
  leave the state unchanged. -/
def guardStep (s : GuardState) : GuardEvent → GuardState
  | .condSettle o =>
      if s.condDone then s
      else
        let s' := { s with condDone := true }
        if s'.resolved then s'
        else
          { s' with
            resolved := true
            settleCount := s'.settleCount + 1
            outcome := some (match o with
              | .ok => .ok ()
              | .err e => .error (.fromCondition e)) }
  | .pollTimerFire =>
      if s.timerPending then
        let s' := { s with timerPending := false }
        if s'.resolved then s'
        else { s' with pollRunning := true }
      else s
  | .pollCheckReturn obs =>
      if s.pollRunning then
        let s' := { s with pollRunning := false }
        match (checkForChatGPTAtCapacity obs 10).result with
        | .ok _ =>
            if s'.resolved then s'
            else { s' with timerPending := true }
        | .error t =>
            if s'.resolved then s'
            else
              { s' with
                resolved := true
                settleCount := s'.settleCount + 1
                outcome := some (.error (.fromPoller t)) }
      else s

/-- A run of the machine from the initial state over a list of events. -/
def guardRun (tr : List GuardEvent) : GuardState :=
  tr.foldl guardStep guardInit

/-- The latch invariant: the settle count is 1 when the latch is set and 0
  otherwise, the outcome is recorded exactly when the latch is set, and a
  settled condition implies a set latch. -/
def GuardInv (s : GuardState) : Prop :=
  s.settleCount = (if s.resolved then 1 else 0) ∧
  (s.outcome.isSome ↔ s.resolved = true) ∧
  (s.condDone = true → s.resolved = true)

theorem guardStep_inv {s : GuardState} (h : GuardInv s) (e : GuardEvent) :
    GuardInv (guardStep s e) := by
  obtain ⟨h1, h2, h3⟩ := h
  cases e with
  | condSettle o =>
      by_cases hd : s.condDone <;> by_cases hr : s.resolved <;>
        cases o <;>
        simp_all [guardStep, GuardInv]
  | pollTimerFire =>
      by_cases ht : s.timerPending <;> by_cases hr : s.resolved <;>
        simp_all [guardStep, GuardInv]
  | pollCheckReturn obs =>
      by_cases hp : s.pollRunning <;> by_cases hr : s.resolved <;>
        cases hres : (checkForChatGPTAtCapacity obs 10).result <;>
        simp_all [guardStep, GuardInv]

theorem guardRun_inv : ∀ tr s, GuardInv s → GuardInv (List.foldl guardStep s tr) := by
  intro tr
  induction tr with
  | nil => intro s h; exact h
  | cons e tr ih => intro s h; exact ih _ (guardStep_inv h e)

/-- The latch is monotone: once set, no step clears it. -/
theorem guardStep_resolved_mono {s : GuardState} (h : s.resolved = true)
    (e : GuardEvent) : (guardStep s e).resolved = true := by
  cases e with
  | condSettle o =>
      by_cases hd : s.condDone <;> cases o <;> simp_all [guardStep]
  | pollTimerFire =>
      by_cases ht : s.timerPending <;> simp_all [guardStep]
  | pollCheckReturn obs =>
      by_cases hp : s.pollRunning <;>
        cases hres : (checkForChatGPTAtCapacity obs 10).result <;>
        simp_all [guardStep]

/-- Once the latch is set, a step changes neither the outcome nor the settle
  count, and never schedules a new poll timer. -/
theorem guardStep_disarmed {s : GuardState} (h : s.resolved = true)
    (e : GuardEvent) :
    (guardStep s e).outcome = s.outcome ∧
    (guardStep s e).settleCount = s.settleCount ∧
    ((guardStep s e).timerPending = true → s.timerPending = true) := by
  cases e with
  | condSettle o =>
      by_cases hd : s.condDone <;> cases o <;> simp_all [guardStep]
  | pollTimerFire =>
      by_cases ht : s.timerPending <;> simp_all [guardStep]
  | pollCheckReturn obs =>
      by_cases hp : s.pollRunning <;>
        cases hres : (checkForChatGPTAtCapacity obs 10).result <;>
        simp_all [guardStep]

/-- A settlement of the condition promise sets the latch. -/
theorem guardStep_condSettle_resolved (s : GuardState) (h : GuardInv s)
    (o : CondOutcome) : (guardStep s (.condSettle o)).resolved = true := by
  obtain ⟨-, -, h3⟩ := h
  by_cases hd : s.condDone
  · have := h3 hd
    exact guardStep_resolved_mono this _
  · by_cases hr : s.resolved <;> cases o <;> simp_all [guardStep]

/-- C2: the guarded wait settles at most once in every run, it settles
  exactly once in every run in which the primary condition settles, and after
  the first settlement the loser is disarmed: no further event changes the
  outcome or the settle count, and no new poll timer is ever scheduled. -/
theorem c2_one_shot_settlement (tr : List GuardEvent) :
    (guardRun tr).settleCount ≤ 1 ∧
    (∀ tr₁ o tr₂, tr = tr₁ ++ .condSettle o :: tr₂ →
      (guardRun tr).settleCount = 1) ∧
    (∀ e, (guardRun tr).resolved = true →
      (guardStep (guardRun tr) e).outcome = (guardRun tr).outcome ∧
      (guardStep (guardRun tr) e).settleCount = (guardRun tr).settleCount ∧
      ((guardStep (guardRun tr) e).timerPending = true →
        (guardRun tr).timerPending = true)) := by
  have hinvInit : GuardInv guardInit :=
    ⟨rfl, by simp [guardInit], by simp [guardInit]⟩
  have hinv : GuardInv (guardRun tr) := guardRun_inv tr guardInit hinvInit
  refine ⟨?_, ?_, ?_⟩
  · obtain ⟨h1, -, -⟩ := hinv
    rw [h1]
    by_cases h : (guardRun tr).resolved <;> simp [h]
  · intro tr₁ o tr₂ htr
    subst htr
    have hmid : (guardRun (tr₁ ++ [GuardEvent.condSettle o])).resolved = true := by
      have hinv₁ : GuardInv (guardRun tr₁) := guardRun_inv tr₁ guardInit hinvInit
      have : guardRun (tr₁ ++ [GuardEvent.condSettle o]) =
          guardStep (guardRun tr₁) (.condSettle o) := by
        simp [guardRun, List.foldl_append]
      rw [this]
      exact guardStep_condSettle_resolved _ hinv₁ o
    have hres : (guardRun (tr₁ ++ GuardEvent.condSettle o :: tr₂)).resolved = true := by
      have : tr₁ ++ GuardEvent.condSettle o :: tr₂ =
          (tr₁ ++ [GuardEvent.condSettle o]) ++ tr₂ := by simp
      rw [this]
      have hmono : ∀ l (s : GuardState), s.resolved = true →
          (List.foldl guardStep s l).resolved = true := by
        intro l
        induction l with
        | nil => intro s h; exact h
        | cons e l ih => intro s h; exact ih _ (guardStep_resolved_mono h e)
      have := hmono tr₂ (guardRun (tr₁ ++ [GuardEvent.condSettle o])) hmid
      simpa [guardRun, List.foldl_append] using this
    obtain ⟨h1, -, -⟩ :=
      guardRun_inv (tr₁ ++ GuardEvent.condSettle o :: tr₂) guardInit hinvInit
    simp only [guardRun] at hres ⊢
    rw [h1, if_pos hres]
  · intro e h
    exact guardStep_disarmed h e

/-- Witness for C2: the run in which the condition fulfils settles once, and
  a subsequent timer fire changes nothing. -/
theorem c2_one_shot_settlement_witness :
    (guardRun [.condSettle .ok]).settleCount = 1 ∧
    (guardStep (guardRun [.condSettle .ok]) .pollTimerFire).outcome =
      (guardRun [.condSettle .ok]).outcome :=
  ⟨(c2_one_shot_settlement [.condSettle .ok]).2.1 [] .ok [] rfl,
   ((c2_one_shot_settlement [.condSettle .ok]).2.2 .pollTimerFire rfl).1⟩

/-- checkForChatGPTAtCapacity either returns normally or throws the capacity
  503 error; no other error escapes it. -/
theorem checkCapacityGo_result (obs : Nat → PollObs) :
    ∀ k i b, (checkCapacityGo obs i b k).result = .ok () ∨
      (checkCapacityGo obs i b k).result = .error atCapacityError := by
  intro k
  induction k with
  | zero =>
      intro i b
      cases hoi : obs i
      · simp [checkCapacityGo, hoi]
      · simp [checkCapacityGo, hoi]
      · simp [checkCapacityGo, hoi]
      · by_cases hb : b <;> simp [checkCapacityGo, hoi, hb]
  | succ k ih =>
      intro i b
      cases hoi : obs i
      · simp [checkCapacityGo, hoi]
      · simpa [checkCapacityGo, hoi] using ih (i + 1) true
      · simp [checkCapacityGo, hoi]
      · by_cases hb : b <;> simp [checkCapacityGo, hoi, hb]

/-- A state whose poller-originated rejection, if any, is the capacity 503
  error. -/
def PollerRejectCapacity (s : GuardState) : Prop :=
  ∀ t, s.outcome = some (.error (.fromPoller t)) → t = atCapacityError

theorem guardStep_pollerRejectCapacity {s : GuardState}
    (h : PollerRejectCapacity s) (e : GuardEvent) :
    PollerRejectCapacity (guardStep s e) := by
  cases e with
  | condSettle o =>
      intro t ht
      by_cases hd : s.condDone <;> by_cases hr : s.resolved <;> cases o <;>
        simp_all [guardStep] <;> exact h t ht
  | pollTimerFire =>
      intro t ht
      by_cases htp : s.timerPending <;> by_cases hr : s.resolved <;>
        simp_all [guardStep] <;> exact h t ht
  | pollCheckReturn obs =>
      intro t ht
      rcases checkCapacityGo_result obs (10 - 1) 0 false with hres | hres <;>
        by_cases hp : s.pollRunning <;> by_cases hr : s.resolved <;>
        simp_all [guardStep, checkForChatGPTAtCapacity] <;>
        exact h t ht

/-- C3: a failure observed during a poll cycle other than the capacity
  condition never surfaces: checkForChatGPTAtCapacity never propagates an
  underlying poll error, and in every run of the guarded wait a rejection
  originating from the poller can only be the capacity 503 error, so any
  other rejection of the guarded wait is the rejection of the primary
  condition itself. -/
theorem c3_poll_errors_swallowed (obs : Nat → PollObs) (retries e : Nat)
    (tr : List GuardEvent) :
    (checkForChatGPTAtCapacity obs retries).result ≠ .error (.underlying e) ∧
    (∀ t, (guardRun tr).outcome = some (.error (.fromPoller t)) →
      t = .chatGPTError "ChatGPT is at capacity" 503) := by
  constructor
  · rcases checkCapacityGo_result obs (retries - 1) 0 false with h | h <;>
      simp [checkForChatGPTAtCapacity, h, atCapacityError]
  · have hbase : PollerRejectCapacity guardInit := by
      intro t ht
      simp [guardInit] at ht
    have hstep : ∀ l (s : GuardState), PollerRejectCapacity s →
        PollerRejectCapacity (List.foldl guardStep s l) := by
      intro l
      induction l with
      | nil => intro s h; exact h
      | cons ev l ih => intro s h; exact ih _ (guardStep_pollerRejectCapacity h ev)
    exact hstep tr guardInit hbase

/-- Witness for C3: a run whose poll observes an underlying error on the
  first cycle rejects with neither that error nor anything but the condition
  outcome; a poll observing the banner throughout rejects with the capacity
  503 error. -/
theorem c3_poll_errors_swallowed_witness :
    (checkForChatGPTAtCapacity (fun _ => .queryError 7) 10).result ≠
      .error (.underlying 7) ∧
    PollThrow.chatGPTError "ChatGPT is at capacity" 503 =
      .chatGPTError "ChatGPT is at capacity" 503 :=
  ⟨(c3_poll_errors_swallowed (fun _ => .queryError 7) 10 7 []).1,
   (c3_poll_errors_swallowed (fun _ => .clear) 10 0
      [.pollTimerFire, .pollCheckReturn (fun _ => .banner)]).2
      (.chatGPTError "ChatGPT is at capacity" 503) (by decide)⟩

/-- Whether an event is a fulfilment of the primary condition. -/
def isCondOk : GuardEvent → Bool
  | .condSettle .ok => true
  | _ => false

theorem guardStep_ok_outcome {s : GuardState} (e : GuardEvent)
    (he : isCondOk e = false) (h : s.outcome ≠ some (.ok ())) :
    (guardStep s e).outcome ≠ some (.ok ()) := by
  cases e with
  | condSettle o =>
      cases o with
      | ok => simp [isCondOk] at he
      | err er =>
          by_cases hd : s.condDone <;> by_cases hr : s.resolved <;>
            simp_all [guardStep]
  | pollTimerFire =>
      by_cases htp : s.timerPending <;> by_cases hr : s.resolved <;>
        simp_all [guardStep]
  | pollCheckReturn obs =>
      by_cases hp : s.pollRunning <;> by_cases hr : s.resolved <;>
        cases hres : (checkForChatGPTAtCapacity obs 10).result <;>
        simp_all [guardStep]

/-- C9: the capacity poller can only reject the guarded wait, never resolve
  it: a run that resolves successfully contains a fulfilment of the primary
  condition, and a poll cycle that returns without throwing changes neither
  the outcome nor the settle count (it merely reschedules the poll timer). -/
theorem c9_poller_never_resolves (tr : List GuardEvent) (s : GuardState)
    (obs : Nat → PollObs) :
    ((guardRun tr).outcome = some (.ok ()) → tr.any isCondOk = true) ∧
    ((checkForChatGPTAtCapacity obs 10).result = .ok () →
      (guardStep s (.pollCheckReturn obs)).outcome = s.outcome ∧
      (guardStep s (.pollCheckReturn obs)).settleCount = s.settleCount) := by
  constructor
  · intro houtcome
    by_contra hnone
    have hall : ∀ e, e ∈ tr → isCondOk e = false := by
      intro e he
      by_contra hc
      have : tr.any isCondOk = true :=
        List.any_eq_true.mpr ⟨e, he, by simpa using hc⟩
      exact hnone this
    have hpres : ∀ l (s' : GuardState), (∀ e, e ∈ l → isCondOk e = false) →
        s'.outcome ≠ some (.ok ()) →
        (List.foldl guardStep s' l).outcome ≠ some (.ok ()) := by
      intro l
      induction l with
      | nil => intro s' _ h; exact h
      | cons ev l ih =>
          intro s' hl h
          exact ih _ (fun e he => hl e (List.mem_cons_of_mem ev he))
            (guardStep_ok_outcome ev (hl ev (List.mem_cons_self ev l)) h)
    have : (guardRun tr).outcome ≠ some (.ok ()) :=
      hpres tr guardInit hall (by simp [guardInit])
    exact this houtcome
  · intro hok
    by_cases hp : s.pollRunning <;> by_cases hr : s.resolved <;>
      simp_all [guardStep]

/-- Witness for C9: a run resolving through the condition contains the
  condition fulfilment, and a clear poll leaves the initial state unsettled. -/
theorem c9_poller_never_resolves_witness :
    [GuardEvent.condSettle .ok].any isCondOk = true ∧
    (guardStep guardInit (.pollCheckReturn (fun _ => .clear))).outcome =
      guardInit.outcome :=
  ⟨(c9_poller_never_resolves [.condSettle .ok] guardInit (fun _ => .clear)).1 rfl,
   ((c9_poller_never_resolves [.condSettle .ok] guardInit (fun _ => .clear)).2 rfl).1⟩

/-- C7: when the caller does not supply timeoutMs, getOpenAIAuth and
  checkForChatGPTAtCapacity both default it to 2 * 60 * 1000 = 120000
  milliseconds. -/
theorem c7_default_timeout :
    getOpenAIAuthTimeoutMs none = 120000 ∧
    capacityTimeoutMs ⟨none, none, none⟩ = 120000 := by
  exact ⟨rfl, rfl⟩

/-- Identity of a browser object inside getOpenAIAuth: the one the caller
  supplied, or the one the function launched through getBrowser. -/
inductive BrowserRef where
  | callerBrowser : BrowserRef
  | launchedBrowser : BrowserRef
deriving DecidableEq, Repr

/-- Identity of a page object inside getOpenAIAuth: the one the caller
  supplied, or the one the function acquired from the browser
  (line 92: the first existing page, or a newly created one). -/
inductive PageRef where
  | callerPage : PageRef
  | acquiredPage : PageRef
deriving DecidableEq, Repr

/-- Where a run of getOpenAIAuth leaves its try block.  The stages are in
  source order: the getBrowser launch (line 82, only run when no browser was
  supplied), the browser.userAgent call (line 90), the page acquisition
  (line 92, only run when no page was supplied), and the remainder of the
  body (navigation, capacity guard, login, cookie capture).  `noFail` is the
  normal return path. -/
inductive FailPoint where
  | atLaunch : FailPoint
  | atUserAgent : FailPoint
  | atPageAcquire : FailPoint
  | inBody : FailPoint
  | noFail : FailPoint
deriving DecidableEq, Repr

/-- A close operation performed by the finally block. -/
inductive CloseAction where
  | closePage : PageRef → CloseAction
  | closeBrowser : BrowserRef → CloseAction
deriving DecidableEq, Repr

/-- Which arguments the caller supplied to getOpenAIAuth. -/
structure AuthArgs where
  browserSupplied : Bool
  pageSupplied : Bool
deriving DecidableEq, Repr

/-- The value of the mutable `browser` variable when the finally block runs:
  the supplied browser, or the launched one once the launch completed. -/
def browserVarAtFinally (a : AuthArgs) (f : FailPoint) : Option BrowserRef :=
  if a.browserSupplied then some .callerBrowser
  else match f with
    | .atLaunch => none
    | _ => some .launchedBrowser

/-- The value of the mutable `page` variable when the finally block runs:
  the supplied page, or the acquired one once the acquisition completed. -/
def pageVarAtFinally (a : AuthArgs) (f : FailPoint) : Option PageRef :=
  if a.pageSupplied then some .callerPage
  else match f with
    | .atLaunch => none
    | .atUserAgent => none
    | .atPageAcquire => none
    | _ => some .acquiredPage

/-- The finally block of getOpenAIAuth (lines 229-240): if a browser was
  supplied (`origBrowser`), close the current page when it differs from the
  supplied page; otherwise close the current browser when one exists. -/
def finallyCloses (origBrowser : Option BrowserRef) (origPage : Option PageRef)
    (browser : Option BrowserRef) (page : Option PageRef) : List CloseAction :=
  match origBrowser with
  | some _ =>
      match page with
      | some p => if origPage = some p then [] else [.closePage p]
      | none => []
  | none =>
      match browser with
      | some b => [.closeBrowser b]
      | none => []

/-- The close operations a run of getOpenAIAuth with arguments `a`, exiting
  at `f`, performs on its way out. -/
def getOpenAIAuthCloses (a : AuthArgs) (f : FailPoint) : List CloseAction :=
  finallyCloses (if a.browserSupplied then some .callerBrowser else none)
    (if a.pageSupplied then some .callerPage else none)
    (browserVarAtFinally a f) (pageVarAtFinally a f)

/-- C4: on every exit path of getOpenAIAuth, normal return or throw, the
  resources it acquired itself are released: when no browser argument was
  supplied and the launch completed, the launched browser is closed; when a
  browser was supplied but no page, the page acquired inside the function is
  closed on every exit path reached after the acquisition. -/
theorem c4_acquired_resources_released (a : AuthArgs) (f : FailPoint) :
    (a.browserSupplied = false → f ≠ .atLaunch →
      CloseAction.closeBrowser .launchedBrowser ∈ getOpenAIAuthCloses a f) ∧
    (a.browserSupplied = true → a.pageSupplied = false →
      f ≠ .atLaunch → f ≠ .atUserAgent → f ≠ .atPageAcquire →
      CloseAction.closePage .acquiredPage ∈ getOpenAIAuthCloses a f) := by
  constructor
  · intro hb hf
    cases f <;>
      simp_all [getOpenAIAuthCloses, finallyCloses, browserVarAtFinally,
        pageVarAtFinally]
  · intro hb hp h1 h2 h3
    cases f <;>
      simp_all [getOpenAIAuthCloses, finallyCloses, browserVarAtFinally,
        pageVarAtFinally]

/-- Witness for C4: a run that launched its own browser and threw in the body
  closes that browser; a run on a supplied browser with an acquired page
  closes that page on normal return. -/
theorem c4_acquired_resources_released_witness :
    CloseAction.closeBrowser .launchedBrowser ∈
      getOpenAIAuthCloses ⟨false, false⟩ .inBody ∧
    CloseAction.closePage .acquiredPage ∈
      getOpenAIAuthCloses ⟨true, false⟩ .noFail :=
  ⟨(c4_acquired_resources_released ⟨false, false⟩ .inBody).1 rfl (by decide),
   (c4_acquired_resources_released ⟨true, false⟩ .noFail).2 rfl rfl
      (by decide) (by decide) (by decide)⟩

/-- C10: getOpenAIAuth never closes a caller-supplied browser or page: a
  supplied page is never the target of a close, with a supplied browser no
  browser close happens at all on any exit path, and with both supplied
  nothing is closed. -/
theorem c10_caller_objects_not_closed (a : AuthArgs) (f : FailPoint) :
    (a.browserSupplied = true →
      (∀ b, CloseAction.closeBrowser b ∉ getOpenAIAuthCloses a f)) ∧
    CloseAction.closePage .callerPage ∉ getOpenAIAuthCloses a f ∧
    (a.browserSupplied = true → a.pageSupplied = true →
      getOpenAIAuthCloses a f = []) := by
  refine ⟨?_, ?_, ?_⟩
  · intro hb b
    cases hp : a.pageSupplied <;> cases f <;>
      simp_all [getOpenAIAuthCloses, finallyCloses, browserVarAtFinally,
        pageVarAtFinally]
  · cases hb : a.browserSupplied <;> cases hp : a.pageSupplied <;> cases f <;>
      simp_all [getOpenAIAuthCloses, finallyCloses, browserVarAtFinally,
        pageVarAtFinally]
  · intro hb hp
    cases f <;>
      simp_all [getOpenAIAuthCloses, finallyCloses, browserVarAtFinally,
        pageVarAtFinally]

/-- Witness for C10: with both objects supplied, a body throw closes
  nothing. -/
theorem c10_caller_objects_not_closed_witness :
    (CloseAction.closeBrowser .callerBrowser ∉
      getOpenAIAuthCloses ⟨true, true⟩ .inBody) ∧
    getOpenAIAuthCloses ⟨true, true⟩ .inBody = [] :=
  ⟨(c10_caller_objects_not_closed ⟨true, true⟩ .inBody).1 rfl .callerBrowser,
   (c10_caller_objects_not_closed ⟨true, true⟩ .inBody).2.2 rfl rfl⟩

/-- A captured browser cookie, reduced to the fields the result uses. -/
structure Cookie where
  name : String
  value : String
deriving DecidableEq, Repr

/-- The reduce of lines 214-217: fold the captured cookie array into a map
  keyed by cookie name; a later cookie with the same name overwrites an
  earlier one, as the object spread does. -/
def reduceCookies (pageCookies : List Cookie) : String → Option Cookie :=
  pageCookies.foldl (fun m c => fun n => if n = c.name then some c else m n)
    (fun _ => none)

/-- The OpenAIAuth record built at lines 219-224.  The two token fields use
  optional chaining, so an absent cookie yields an absent token. -/
structure OpenAIAuthResult where
  userAgent : String
  clearanceToken : Option String
  sessionToken : Option String
  cookies : String → Option Cookie

/-- The successful return value of getOpenAIAuth given the user agent and
  the cookies captured from the page. -/
def getOpenAIAuthResult (userAgent : String) (pageCookies : List Cookie) :
    OpenAIAuthResult :=
  let cookies := reduceCookies pageCookies
  ⟨userAgent, (cookies "cf_clearance").map Cookie.value,
    (cookies "__Secure-next-auth.session-token").map Cookie.value, cookies⟩

/-- JS truthiness of an optional string: undefined and the empty string are
  falsy. -/
def jsTruthy (s : Option String) : Bool := !(s.getD "").isEmpty

/-- The branch condition `email && password` at line 120 guarding the login
  flow. -/
def loginBranchTaken (email password : Option String) : Bool :=
  jsTruthy email && jsTruthy password

/-- The last cookie of a given name in the captured list: the independent
  description of which cookie the reduce keeps for each name. -/
def lastNamed (n : String) : List Cookie → Option Cookie
  | [] => none
  | c :: cs =>
      match lastNamed n cs with
      | some c' => some c'
      | none => if c.name = n then some c else none

theorem reduceCookies_foldl (n : String) :
    ∀ (cs : List Cookie) (m : String → Option Cookie),
      (cs.foldl (fun m c => fun n => if n = c.name then some c else m n) m) n =
        match lastNamed n cs with
        | some c' => some c'
        | none => m n := by
  intro cs
  induction cs with
  | nil => intro m; rfl
  | cons c cs ih =>
      intro m
      rw [List.foldl_cons, ih]
      cases hl : lastNamed n cs with
      | some c' => simp [lastNamed, hl]
      | none =>
          by_cases hc : c.name = n
          · simp [lastNamed, hl, hc]
          · have hc' : ¬ n = c.name := fun h => hc h.symm
            simp [lastNamed, hl, hc, hc']

/-- The cookie map built by the reduce holds, under each name, the last
  captured cookie of that name. -/
theorem reduceCookies_eq_lastNamed (cs : List Cookie) (n : String) :
    reduceCookies cs n = lastNamed n cs := by
  rw [reduceCookies, reduceCookies_foldl]
  cases hl : lastNamed n cs <;> simp

theorem lastNamed_mem {n : String} :
    ∀ {cs : List Cookie} {c : Cookie}, lastNamed n cs = some c →
      c ∈ cs ∧ c.name = n := by
  intro cs
  induction cs with
  | nil => intro c h; simp [lastNamed] at h
  | cons c₀ cs ih =>
      intro c h
      rw [lastNamed] at h
      cases hl : lastNamed n cs with
      | some c' =>
          rw [hl] at h
          obtain ⟨hmem, hname⟩ := ih hl
          cases h
          exact ⟨List.mem_cons_of_mem c₀ hmem, hname⟩
      | none =>
          rw [hl] at h
          by_cases hc : c₀.name = n
          · simp [hc] at h
            subst h
            exact ⟨List.mem_cons_self c₀ cs, hc⟩
          · simp [hc] at h

theorem lastNamed_isSome {n : String} :
    ∀ {cs : List Cookie} {c : Cookie}, c ∈ cs → c.name = n →
      (lastNamed n cs).isSome := by
  intro cs
  induction cs with
  | nil => intro c h; simp at h
  | cons c₀ cs ih =>
      intro c hmem hname
      rw [lastNamed]
      cases hl : lastNamed n cs with
      | some c' => simp
      | none =>
          rcases List.mem_cons.mp hmem with h | h
          · subst h
            simp [hname]
          · have := ih h hname
            rw [hl] at this
            simp at this

theorem lastNamed_none {n : String} :
    ∀ {cs : List Cookie}, (∀ c ∈ cs, c.name ≠ n) → lastNamed n cs = none := by
  intro cs
  induction cs with
  | nil => intro _; rfl
  | cons c₀ cs ih =>
      intro h
      rw [lastNamed, ih (fun c hc => h c (List.mem_cons_of_mem c₀ hc))]
      simp [h c₀ (List.mem_cons_self c₀ cs)]

theorem lastNamed_nodup :
    ∀ {cs : List Cookie} {c : Cookie}, (cs.map Cookie.name).Nodup → c ∈ cs →
      lastNamed c.name cs = some c := by
  intro cs
  induction cs with
  | nil => intro c _ h; simp at h
  | cons c₀ cs ih =>
      intro c hnd hmem
      have hnd' : (cs.map Cookie.name).Nodup := (List.nodup_cons.mp hnd).2
      rcases List.mem_cons.mp hmem with h | h
      · subst h
        have habs : c.name ∉ cs.map Cookie.name := (List.nodup_cons.mp hnd).1
        have hnone : lastNamed c.name cs = none := by
          refine lastNamed_none ?_
          intro c' hc' hne
          exact habs (hne ▸ List.mem_map_of_mem Cookie.name hc')
        rw [lastNamed, hnone]
        simp
      · rw [lastNamed, ih hnd' h]

/-- C5: the successful result of getOpenAIAuth carries the user agent, a
  clearanceToken equal to the value of the captured cf_clearance cookie, a
  sessionToken equal to the value of the captured session-token cookie, and
  a cookie map holding each captured cookie under its name (exactly that
  cookie when names are unique); omitting email or password skips the login
  branch, and without a captured session cookie the result carries no
  session token. -/
theorem c5_auth_result (userAgent : String) (pageCookies : List Cookie) :
    (getOpenAIAuthResult userAgent pageCookies).userAgent = userAgent ∧
    (getOpenAIAuthResult userAgent pageCookies).clearanceToken =
      (lastNamed "cf_clearance" pageCookies).map Cookie.value ∧
    (getOpenAIAuthResult userAgent pageCookies).sessionToken =
      (lastNamed "__Secure-next-auth.session-token" pageCookies).map Cookie.value ∧
    (∀ c ∈ pageCookies, ∃ c',
      (getOpenAIAuthResult userAgent pageCookies).cookies c.name = some c' ∧
        c' ∈ pageCookies ∧ c'.name = c.name) ∧
    ((pageCookies.map Cookie.name).Nodup → ∀ c ∈ pageCookies,
      (getOpenAIAuthResult userAgent pageCookies).cookies c.name = some c) ∧
    (∀ email password : Option String, email = none ∨ password = none →
      loginBranchTaken email password = false) ∧
    ((∀ c ∈ pageCookies, c.name ≠ "__Secure-next-auth.session-token") →
      (getOpenAIAuthResult userAgent pageCookies).sessionToken = none) := by
  refine ⟨rfl, ?_, ?_, ?_, ?_, ?_, ?_⟩
  · simp [getOpenAIAuthResult, reduceCookies_eq_lastNamed]
  · simp [getOpenAIAuthResult, reduceCookies_eq_lastNamed]
  · intro c hc
    have hsome := lastNamed_isSome hc rfl
    obtain ⟨c', hc'⟩ := Option.isSome_iff_exists.mp hsome
    obtain ⟨hmem, hname⟩ := lastNamed_mem hc'
    refine ⟨c', ?_, hmem, hname⟩
    simp [getOpenAIAuthResult, reduceCookies_eq_lastNamed, hc']
  · intro hnd c hc
    simp [getOpenAIAuthResult, reduceCookies_eq_lastNamed, lastNamed_nodup hnd hc]
  · intro email password h
    rcases h with h | h <;> subst h <;>
      simp [loginBranchTaken, jsTruthy, show "".isEmpty = true from rfl]
  · intro h
    simp [getOpenAIAuthResult, reduceCookies_eq_lastNamed, lastNamed_none h]

/-- Witness for C5 at a concrete cookie capture. -/
theorem c5_auth_result_witness :
    (getOpenAIAuthResult "ua" [⟨"cf_clearance", "abc"⟩]).cookies "cf_clearance" =
      some ⟨"cf_clearance", "abc"⟩ ∧
    loginBranchTaken none (some "pw") = false ∧
    (getOpenAIAuthResult "ua" [⟨"cf_clearance", "abc"⟩]).sessionToken = none :=
  ⟨(c5_auth_result "ua" [⟨"cf_clearance", "abc"⟩]).2.2.2.2.1 (by decide)
      ⟨"cf_clearance", "abc"⟩ (List.mem_singleton.mpr rfl),
   (c5_auth_result "ua" []).2.2.2.2.2.1 none (some "pw") (Or.inl rfl),
   (c5_auth_result "ua" [⟨"cf_clearance", "abc"⟩]).2.2.2.2.2.2 (by decide)⟩

/-- JS String.prototype.split with separator "@", modeled on the character
  list of the string: empty segments are kept, and a trailing separator
  yields a trailing empty segment. -/
def jsSplitAtSign : List Char → List (List Char)
  | [] => [[]]
  | c :: cs =>
      if c = '@' then [] :: jsSplitAtSign cs
      else
        match jsSplitAtSign cs with
        | [] => [[c]]
        | h :: t => (c :: h) :: t

/-- Lines 316-318: the value forwarded in the --proxy-server launch
  argument: the second segment of split("@") when the string includes "@",
  the string itself otherwise. -/
def proxyIpPort (proxyServer : List Char) : List Char :=
  if proxyServer.contains '@' then (jsSplitAtSign proxyServer).getD 1 []
  else proxyServer

/-- The launch argument pushed at line 319. -/
def proxyServerArg (proxyServer : String) : String :=
  "--proxy-server=" ++ String.mk (proxyIpPort proxyServer.data)

/-- The characters after the first occurrence of "@": the forwarded value
  the claim describes. -/
def afterFirstAtSign : List Char → List Char
  | [] => []
  | c :: cs => if c = '@' then cs else afterFirstAtSign cs

theorem jsSplitAtSign_ne_nil : ∀ l : List Char, jsSplitAtSign l ≠ [] := by
  intro l
  cases l with
  | nil => simp [jsSplitAtSign]
  | cons c cs =>
      rw [jsSplitAtSign]
      by_cases hc : c = '@'
      · simp [hc]
      · cases hs : jsSplitAtSign cs <;> simp [hc, hs]

theorem jsSplitAtSign_getD_zero :
    ∀ l : List Char, (jsSplitAtSign l).getD 0 [] = l.takeWhile (· != '@') := by
  intro l
  induction l with
  | nil => rfl
  | cons c cs ih =>
      by_cases hc : c = '@'
      · simp [jsSplitAtSign, hc, List.takeWhile_cons]
      · rw [jsSplitAtSign]
        cases hs : jsSplitAtSign cs with
        | nil => exact absurd hs (jsSplitAtSign_ne_nil cs)
        | cons h t =>
            rw [hs] at ih
            simp at ih
            simp [hc, hs, List.takeWhile_cons, ih]

theorem jsSplitAtSign_contains :
    ∀ l : List Char, l.contains '@' = true →
      jsSplitAtSign l = l.takeWhile (· != '@') :: jsSplitAtSign (afterFirstAtSign l) := by
  intro l
  induction l with
  | nil => intro h; simp [List.contains] at h
  | cons c cs ih =>
      intro h
      by_cases hc : c = '@'
      · subst hc
        simp [jsSplitAtSign, afterFirstAtSign, List.takeWhile_cons]
      · have hcs : cs.contains '@' = true := by
          simp [List.contains_cons] at h
          rcases h with h | h
          · exact absurd h.symm hc
          · simpa [List.contains] using h
        rw [jsSplitAtSign, ih hcs]
        simp [hc, afterFirstAtSign, List.takeWhile_cons]

/-- C8 counterexample: for a proxy string whose userinfo itself contains an
  "@" (for instance a password with an "@"), the forwarded value is not the
  substring after the first "@": the code forwards only the segment between
  the first and second "@". -/
theorem c8_counterexample :
    proxyIpPort "user@host@8080".data ≠ afterFirstAtSign "user@host@8080".data := by
  decide

/-- C8 (amended): the value forwarded as the --proxy-server launch argument
  is, for a proxyServer containing "@", the segment of the string strictly
  between the first "@" and the following "@" (or the end of the string),
  and a string without "@" is forwarded unchanged. -/
theorem c8_proxy_forwarding (s : List Char) :
    proxyIpPort s =
      if s.contains '@' then (afterFirstAtSign s).takeWhile (· != '@')
      else s := by
  by_cases h : s.contains '@' = true
  · rw [proxyIpPort, if_pos h, if_pos h, jsSplitAtSign_contains s h]
    simpa using jsSplitAtSign_getD_zero (afterFirstAtSign s)
  · rw [proxyIpPort, if_neg h, if_neg h]

end OpenAIAuth
